import Mathlib

/-!
Verification of the AMTD scan-orchestration core against its specification.

The definitions below are a shallow embedding of the Python sources
`src/scan_manager/scan_result_parser.py`, `src/scan_manager/zap_scanner.py`
and `src/scan_manager/scan_executor.py`:

* Python dictionaries whose key sets are fixed by the code become structures;
  raw ZAP alert dictionaries (whose keys may be absent) use `Option` fields,
  `dict.get(k, d)` becoming `Option.getD`.
* A Python function that may raise becomes a function into `Option`/`Except`;
  `try/except` becomes a `match` on that result.
* Polling loops that poll an external engine until a deadline become
  structural recursion over the finite list of responses the engine returns
  before the deadline elapses (the list length is the poll budget
  `timeout / interval`); real wall-clock time is not modelled.
* Logging calls are dropped (they do not affect data flow); where the claims
  need them, warnings are reflected in returned values exactly as in the
  source (e.g. `wait_for_spider` returning `False`).
-/

namespace AMTD

/-! ## Raw ZAP alerts (engine-native records)

A raw alert is a JSON dictionary from the engine; every field the parser
reads is a string when present.  Absent keys are `none`. -/

structure Alert where
  name : Option String := none
  alert : Option String := none
  risk : Option String := none
  confidence : Option String := none
  cweid : Option String := none
  url : Option String := none
  method : Option String := none
  param : Option String := none
  attack : Option String := none
  evidence : Option String := none
  other : Option String := none
  description : Option String := none
  solution : Option String := none
  reference : Option String := none
  pluginId : Option String := none
  alertRef : Option String := none
  messageId : Option String := none
  inputVector : Option String := none
deriving DecidableEq, Repr

/-! ## Normalized vulnerability record (output of `_parse_alert`) -/

structure Vuln where
  name : String
  type : String
  severity : String
  confidence : String
  risk_code : Int
  confidence_code : Int
  cwe_id : String
  owasp_category : String
  url : String
  method : String
  parameter : String
  attack : String
  evidence : String
  other_info : String
  description : String
  solution : String
  reference : String
  plugin_id : String
  alert_ref : String
  message_id : String
  input_vector : String
  status : String
deriving DecidableEq, Repr

/-- Statistics dictionary built by `parse_alerts`.  The five severity keys and
`total` are the keys the code initialises; an increment under any other key
would create a dictionary key outside this record and is modelled as leaving
the five named counters unchanged (`bumpStat` below). -/
structure Statistics where
  critical : Nat := 0
  high : Nat := 0
  medium : Nat := 0
  low : Nat := 0
  info : Nat := 0
  total : Nat := 0
deriving DecidableEq, Repr

namespace ScanResultParser

/-- `SEVERITY_MAP` from the source: risk code string to severity tier. -/
def SEVERITY_MAP : List (String × String) :=
  [("0", "info"), ("1", "low"), ("2", "medium"), ("3", "high"), ("4", "critical")]

/-- `CONFIDENCE_MAP` from the source: confidence code string to tier. -/
def CONFIDENCE_MAP : List (String × String) :=
  [("0", "false_positive"), ("1", "low"), ("2", "medium"), ("3", "high"), ("4", "confirmed")]

/-- `SEVERITY_MAP.get(str(risk), 'info')`. -/
def severityOf (risk : String) : String := (SEVERITY_MAP.lookup risk).getD "info"

/-- `CONFIDENCE_MAP.get(str(confidence), 'low')`. -/
def confidenceOf (conf : String) : String := (CONFIDENCE_MAP.lookup conf).getD "low"

/-- Whitespace stripped by Python `int()` around the digits. -/
def isSpaceChar (c : Char) : Bool :=
  c = ' ' || c = '\t' || c = '\n' || c = '\r'

/-- Strip leading and trailing whitespace from a character list. -/
def pyStrip (l : List Char) : List Char :=
  ((l.dropWhile isSpaceChar).reverse.dropWhile isSpaceChar).reverse

/-- The value of a decimal digit character, `none` otherwise. -/
def charDigit (c : Char) : Option Nat :=
  if 48 ≤ c.toNat ∧ c.toNat ≤ 57 then some (c.toNat - 48) else none

/-- Parse a nonempty all-digit character list as a natural number. -/
def parseNatAux (acc : Nat) : List Char → Option Nat
  | [] => some acc
  | c :: rest =>
    match charDigit c with
    | some d => parseNatAux (acc * 10 + d) rest
    | none => none

/-- Python `int(s)` on a string: strips surrounding whitespace, accepts an
optional sign followed by decimal digits, raises (`none`) otherwise.
(Underscore digit separators accepted by CPython are not modelled; no claim
depends on them.) -/
def pyInt (s : String) : Option Int :=
  match pyStrip s.data with
  | [] => none
  | c :: rest =>
    if c = '+' then
      if rest = [] then none else (parseNatAux 0 rest).map Int.ofNat
    else if c = '-' then
      if rest = [] then none else (parseNatAux 0 rest).map (fun n => -(n : Int))
    else parseNatAux 0 (c :: rest)

/-- Python `s.startswith(p)`. -/
def strStartsWith (s p : String) : Bool := p.data.isPrefixOf s.data

/-- Whether `needle` occurs as a contiguous run inside `hay`. -/
def containsSubChars (needle : List Char) : List Char → Bool
  | [] => needle.isPrefixOf []
  | c :: t => needle.isPrefixOf (c :: t) || containsSubChars needle t

/-- Python `needle in hay`. -/
def strContainsSub (hay needle : String) : Bool :=
  containsSubChars needle.data hay.data

/-- Python `str.lower()` on one ASCII character. -/
def pyToLower (c : Char) : Char :=
  if 65 ≤ c.toNat ∧ c.toNat ≤ 90 then Char.ofNat (c.toNat + 32) else c

/-- Python `s.lower()` (ASCII; alert names are ASCII). -/
def strToLower (s : String) : String := ⟨s.data.map pyToLower⟩

/-- `_extract_cwe`: normalise the engine cwe field to the form `CWE-n`;
empty or absent yields the empty string. -/
def extractCwe (a : Alert) : String :=
  let cwe_id := a.cweid.getD ""
  if cwe_id ≠ "" then
    if ¬ strStartsWith cwe_id "CWE-" then "CWE-" ++ cwe_id else cwe_id
  else ""

/-- The ordered keyword table of `_map_owasp_category`. -/
def owaspMappings : List (String × String) :=
  [("injection", "A03:2021 - Injection"),
   ("sql injection", "A03:2021 - Injection"),
   ("xss", "A03:2021 - Injection"),
   ("cross site scripting", "A03:2021 - Injection"),
   ("authentication", "A07:2021 - Identification and Authentication Failures"),
   ("session", "A07:2021 - Identification and Authentication Failures"),
   ("authorization", "A01:2021 - Broken Access Control"),
   ("access control", "A01:2021 - Broken Access Control"),
   ("sensitive data", "A02:2021 - Cryptographic Failures"),
   ("encryption", "A02:2021 - Cryptographic Failures"),
   ("xxe", "A05:2021 - Security Misconfiguration"),
   ("misconfiguration", "A05:2021 - Security Misconfiguration"),
   ("vulnerable component", "A06:2021 - Vulnerable and Outdated Components"),
   ("outdated", "A06:2021 - Vulnerable and Outdated Components"),
   ("logging", "A09:2021 - Security Logging and Monitoring Failures"),
   ("monitoring", "A09:2021 - Security Logging and Monitoring Failures"),
   ("ssrf", "A10:2021 - Server-Side Request Forgery"),
   ("csrf", "A01:2021 - Broken Access Control")]

/-- `_map_owasp_category`: first keyword contained in the lowercased name
wins; no match yields `Unknown`. -/
def mapOwaspCategory (a : Alert) : String :=
  let name := strToLower (a.name.getD "")
  match owaspMappings.find? (fun kc => strContainsSub name kc.1) with
  | some kc => kc.2
  | none => "Unknown"

/-- `_parse_alert`: normalise one raw alert.  The severity and confidence
lookups cannot raise; the subsequent `int(risk)` / `int(confidence_level)`
conversions raise on non-integer strings, which makes the whole method raise
(`none` here), and `parse_alerts` then skips the alert. -/
def parseAlert (a : Alert) : Option Vuln :=
  let risk := a.risk.getD "0"
  let severity := severityOf risk
  let confidence_level := a.confidence.getD "0"
  let confidence := confidenceOf confidence_level
  match pyInt risk, pyInt confidence_level with
  | some rc, some cc =>
    some
      { name := a.name.getD "Unknown Vulnerability"
        type := a.alert.getD (a.name.getD "Unknown")
        severity := severity
        confidence := confidence
        risk_code := rc
        confidence_code := cc
        cwe_id := extractCwe a
        owasp_category := mapOwaspCategory a
        url := a.url.getD ""
        method := a.method.getD ""
        parameter := a.param.getD ""
        attack := a.attack.getD ""
        evidence := a.evidence.getD ""
        other_info := a.other.getD ""
        description := a.description.getD ""
        solution := a.solution.getD ""
        reference := a.reference.getD ""
        plugin_id := a.pluginId.getD ""
        alert_ref := a.alertRef.getD ""
        message_id := a.messageId.getD ""
        input_vector := a.inputVector.getD ""
        status := "new" }
  | _, _ => none

/-- One statistics update of `parse_alerts`:
`statistics[severity] = statistics.get(severity, 0) + 1` followed by
`statistics['total'] += 1`.  A severity outside the five named keys would
increment a dictionary key this record does not carry. -/
def bumpStat (st : Statistics) (sev : String) : Statistics :=
  let st :=
    if sev = "critical" then { st with critical := st.critical + 1 }
    else if sev = "high" then { st with high := st.high + 1 }
    else if sev = "medium" then { st with medium := st.medium + 1 }
    else if sev = "low" then { st with low := st.low + 1 }
    else if sev = "info" then { st with info := st.info + 1 }
    else st
  { st with total := st.total + 1 }

/-- The `for alert in alerts` loop of `parse_alerts`, with the accumulated
vulnerability list and statistics explicit: a raising `_parse_alert` is
caught and the alert skipped; otherwise the vulnerability is appended and
the counters updated. -/
def parseLoop (acc : List Vuln × Statistics) : List Alert → List Vuln × Statistics
  | [] => acc
  | a :: rest =>
    match parseAlert a with
    | none => parseLoop acc rest
    | some v => parseLoop (acc.1 ++ [v], bumpStat acc.2 v.severity) rest

/-- `parse_alerts`: parse each alert, skipping those whose parse raises,
accumulating the vulnerability list and the statistics counters (all
initialised to zero). -/
def parse_alerts (alerts : List Alert) : List Vuln × Statistics :=
  parseLoop ([], {}) alerts

/-- The fixed confidence ordering of `filter_by_confidence`. -/
def confidence_order : List String := ["low", "medium", "high", "confirmed"]

/-- `filter_by_confidence`: a `min_confidence` outside the ordering returns
the input unchanged; otherwise keep the vulnerabilities whose confidence lies
in the suffix of the ordering starting at `min_confidence`. -/
def filter_by_confidence (vulnerabilities : List Vuln)
    (min_confidence : String) : List Vuln :=
  if confidence_order.contains min_confidence then
    let min_index := confidence_order.indexOf min_confidence
    vulnerabilities.filter
      (fun v => (confidence_order.drop min_index).contains v.confidence)
  else vulnerabilities

/-- The deduplication key `(type, url, parameter)`. -/
def dedupKey (v : Vuln) : String × String × String := (v.type, v.url, v.parameter)

/-- The loop of `deduplicate`, with the `seen` set of keys made explicit. -/
def dedupAux (seen : List (String × String × String)) : List Vuln → List Vuln
  | [] => []
  | v :: rest =>
    if dedupKey v ∈ seen then dedupAux seen rest
    else v :: dedupAux (dedupKey v :: seen) rest

/-- `deduplicate`: keep the first occurrence of each `(type, url, parameter)`
key. -/
def deduplicate (vulnerabilities : List Vuln) : List Vuln :=
  dedupAux [] vulnerabilities

end ScanResultParser

/-! ## ZAP scanner poll loops (`zap_scanner.py`)

Each poll loop runs while wall-clock time remains; it is embedded as
structural recursion over the list of responses the engine produces before
the deadline (empty remainder = deadline reached).  An engine API call that
raises is an `Except.error`. -/

namespace ZAPScanner

/-- The loop of `_wait_for_zap`: one entry per readiness probe before the
timeout; `true` means the version query answered HTTP 200 (any request
exception or non-200 is `false`).  Returns whether ZAP became ready; the
caller raises `TimeoutError` on `false`. -/
def waitForZap : List Bool → Bool
  | [] => false
  | r :: rest => if r then true else waitForZap rest

/-- The shared loop body of `wait_for_spider` and `wait_for_active_scan`:
each poll yields the parsed integer status, or an exception (transport
failure or non-integer status), which propagates.  Completion is
`status >= 100`; an exhausted budget returns `false` (soft timeout). -/
def waitScanLoop : List (Except Unit Nat) → Except Unit Bool
  | [] => Except.ok false
  | p :: rest =>
    match p with
    | Except.error e => Except.error e
    | Except.ok status =>
      if status ≥ 100 then Except.ok true else waitScanLoop rest

/-- `wait_for_spider`. -/
def wait_for_spider (polls : List (Except Unit Nat)) : Except Unit Bool :=
  waitScanLoop polls

/-- `wait_for_active_scan`. -/
def wait_for_active_scan (polls : List (Except Unit Nat)) : Except Unit Bool :=
  waitScanLoop polls

/-- The dictionary returned by `get_scan_progress`. -/
structure Progress where
  records_to_scan : Nat := 0
  passive_scan_complete : Bool := false
deriving DecidableEq, Repr

/-- `get_scan_progress`: the `recordsToScan` query and its integer conversion
run inside a `try`; any raise yields `{records_to_scan: 0,
passive_scan_complete: False}`; a successful count `n` yields completion
exactly when `n = 0`. -/
def get_scan_progress (resp : Except Unit Nat) : Progress :=
  match resp with
  | Except.ok n => { records_to_scan := n, passive_scan_complete := n == 0 }
  | Except.error _ => { records_to_scan := 0, passive_scan_complete := false }

end ZAPScanner

/-! ## Scan executor (`scan_executor.py`) -/

namespace ScanExecutor

/-- The engine/container operations `execute_scan` can invoke, in trace
order, plus the `_cleanup` routine of the `finally` block. -/
inductive Op where
  | startContainer
  | spiderScan
  | ajaxSpiderScan
  | passivePoll
  | activeScan
  | collectAlerts
  | cleanup
deriving DecidableEq, Repr

/-- The exceptions `execute_scan` can observe (`str(e)` is stored in
`scan_results['error']`). -/
inductive ScanError where
  | containerStartFailed
  | zapReadinessTimeout
  | noTargetUrl
  | spiderApiError
  | ajaxApiError
  | activeApiError
  | alertsApiError
deriving DecidableEq, Repr

/-- The behaviour of the external world during one `execute_scan` run:
configuration values read from `self.config`, and the outcome of every
engine/container interaction the body can perform. -/
structure CoreEnv where
  targetUrl : Option String := none
  scanType : Option String := none
  spiderEnabled : Bool := true
  ajaxEnabled : Bool := false
  activeEnabled : Bool := true
  containerStart : Except Unit Unit := Except.ok ()
  readiness : List Bool := []
  spiderStart : Except Unit String := Except.ok ""
  spiderPolls : List (Except Unit Nat) := []
  ajaxStart : Except Unit String := Except.ok ""
  passivePolls : List (Except Unit Nat) := []
  activeStart : Except Unit String := Except.ok ""
  activePolls : List (Except Unit Nat) := []
  alerts : Except Unit (List Alert) := Except.ok []
deriving Repr

/-- Outcomes of the best-effort steps inside `_cleanup`; every one of them is
wrapped in its own `try/except` in the source. -/
structure CleanupEnv where
  logWrite : Except Unit Unit := Except.ok ()
  shutdownCall : Except Unit Unit := Except.ok ()
  stopContainer : Except Unit Unit := Except.ok ()
deriving Repr

/-- What `_cleanup` did (errors are logged, never raised). -/
inductive CleanupAction where
  | savedLogs
  | logSaveError
  | engineShutdown
  | containerStopped
  | containerStopError
deriving DecidableEq, Repr

/-- `_cleanup`: save container logs (errors swallowed), shut the engine down
gracefully (`shutdown` swallows its own errors), stop and remove the
container (`stop_container` swallows its own errors).  Total — no exception
escapes this routine. -/
def cleanupRun (k : CleanupEnv) : List CleanupAction :=
  (match k.logWrite with
    | Except.ok _ => [CleanupAction.savedLogs]
    | Except.error _ => [CleanupAction.logSaveError])
  ++ [CleanupAction.engineShutdown]
  ++ (match k.stopContainer with
    | Except.ok _ => [CleanupAction.containerStopped]
    | Except.error _ => [CleanupAction.containerStopError])

/-- `_wait_for_passive_scan`: poll `get_scan_progress` until
`passive_scan_complete` or the timeout; one list entry per poll the deadline
allows.  Returns whether completion was observed and how many polls were
performed; a timeout logs a warning and returns normally — nothing in the
loop can raise. -/
def waitForPassiveScan : List (Except Unit Nat) → Bool × Nat
  | [] => (false, 0)
  | p :: rest =>
    if (ZAPScanner.get_scan_progress p).passive_scan_complete then (true, 1)
    else
      let r := waitForPassiveScan rest
      (r.1, r.2 + 1)

/-- The `self.scan_results` dictionary (timestamps and durations, which carry
no control flow, are not modelled). -/
structure ScanResults where
  target_url : Option String := none
  scan_type : Option String := none
  spider_scan_id : Option String := none
  active_scan_id : Option String := none
  status : Option String := none
  error : Option ScanError := none
  vulnerabilities : List Vuln := []
  statistics : Option Statistics := none
deriving DecidableEq, Repr

/-- Step 1, `_run_spider_scan` behind its enable flag: start the spider
(an API raise propagates), wait for it (a poll raise propagates, a timeout
only returns `False` and logs a warning), then record the spider scan id.
Returns the updated results, the operations this phase invoked, and the
exception that aborted it, if any. -/
def spiderPhase (env : CoreEnv) (r : ScanResults) :
    ScanResults × List Op × Option ScanError :=
  if env.spiderEnabled then
    match env.spiderStart with
    | Except.error _ => (r, [Op.spiderScan], some ScanError.spiderApiError)
    | Except.ok sid =>
      match ZAPScanner.wait_for_spider env.spiderPolls with
      | Except.error _ => (r, [Op.spiderScan], some ScanError.spiderApiError)
      | Except.ok _success =>
        ({ r with spider_scan_id := some sid }, [Op.spiderScan], none)
  else (r, [], none)

/-- Step 2, `_run_ajax_spider_scan` behind its enable flag: the start call
may raise; its result is only logged. -/
def ajaxPhase (env : CoreEnv) : List Op × Option ScanError :=
  if env.ajaxEnabled then
    match env.ajaxStart with
    | Except.error _ => ([Op.ajaxSpiderScan], some ScanError.ajaxApiError)
    | Except.ok _ => ([Op.ajaxSpiderScan], none)
  else ([], none)

/-- Step 4, `_run_active_scan` behind its enable flag: start the active scan
(an API raise propagates), wait for it (a poll raise propagates, a timeout
only returns `False`), then record the active scan id. -/
def activePhase (env : CoreEnv) (r : ScanResults) :
    ScanResults × List Op × Option ScanError :=
  if env.activeEnabled then
    match env.activeStart with
    | Except.error _ => (r, [Op.activeScan], some ScanError.activeApiError)
    | Except.ok sid =>
      match ZAPScanner.wait_for_active_scan env.activePolls with
      | Except.error _ => (r, [Op.activeScan], some ScanError.activeApiError)
      | Except.ok _success =>
        ({ r with active_scan_id := some sid }, [Op.activeScan], none)
  else (r, [], none)

/-- Step 5: fetch all alerts (may raise), parse them, and mark the scan
completed. -/
def collectPhase (env : CoreEnv) (r : ScanResults) :
    ScanResults × List Op × Option ScanError :=
  match env.alerts with
  | Except.error _ => (r, [Op.collectAlerts], some ScanError.alertsApiError)
  | Except.ok alerts =>
    let parsed := ScanResultParser.parse_alerts alerts
    ({ r with
        status := some "completed"
        vulnerabilities := parsed.1
        statistics := some parsed.2 },
      [Op.collectAlerts], none)

/-- Steps 1 to 5 of the `execute_scan` body, once the scanner is up and the
target resolved: the optional Spider and AjaxSpider phases, the
unconditional passive wait, the optional active scan, and result
collection.  The first phase exception short-circuits the remaining
phases. -/
def scanPhases (env : CoreEnv) (r1 : ScanResults) :
    ScanResults × List Op × Option ScanError :=
  match spiderPhase env r1 with
  | (r2, t2, some e) => (r2, t2, some e)
  | (r2, t2, none) =>
    match ajaxPhase env with
    | (t3, some e) => (r2, t2 ++ t3, some e)
    | (t3, none) =>
      -- Step 3: wait for passive scan (always; never raises)
      let _pw := waitForPassiveScan env.passivePolls
      match activePhase env r2 with
      | (r5, t5, some e) => (r5, t2 ++ t3 ++ [Op.passivePoll] ++ t5, some e)
      | (r5, t5, none) =>
        match collectPhase env r5 with
        | (r6, t6, e) => (r6, t2 ++ t3 ++ [Op.passivePoll] ++ t5 ++ t6, e)

/-- The `try` body of `execute_scan`: initialise the scanner (start the
container, wait for readiness), check the target, then run the phase
sequence.  Returns the accumulated `scan_results`, the trace of operations
invoked, and the exception that aborted the body, if any. -/
def scanBody (env : CoreEnv) : ScanResults × List Op × Option ScanError :=
  let r0 : ScanResults := {}
  let t0 : List Op := [Op.startContainer]
  match env.containerStart with
  | Except.error _ => (r0, t0, some ScanError.containerStartFailed)
  | Except.ok _ =>
    if ZAPScanner.waitForZap env.readiness = false then
      (r0, t0, some ScanError.zapReadinessTimeout)
    else
      match env.targetUrl with
      | none => (r0, t0, some ScanError.noTargetUrl)
      | some url =>
        match scanPhases env { r0 with
          target_url := some url
          scan_type := some (env.scanType.getD "full") } with
        | (r, t, e) => (r, t0 ++ t, e)

/-- The result of one `execute_scan` call: the final `self.scan_results`
(obtainable via `get_scan_results` whether or not the call raised), the
exception re-raised out of `execute_scan` (if any), the trace of operations,
and the actions `_cleanup` performed. -/
structure ExecOutcome where
  results : ScanResults
  raised : Option ScanError
  trace : List Op
  cleanupLog : List CleanupAction
deriving DecidableEq, Repr

/-- `execute_scan`: run the body; on exception set `status = 'failed'` and
record the error, then re-raise; the `finally` block runs `_cleanup` on every
path. -/
def execute_scan (env : CoreEnv) (k : CleanupEnv) : ExecOutcome :=
  match scanBody env with
  | (r, t, none) =>
    { results := r, raised := none
      trace := t ++ [Op.cleanup], cleanupLog := cleanupRun k }
  | (r, t, some e) =>
    { results := { r with status := some "failed", error := some e }
      raised := some e
      trace := t ++ [Op.cleanup], cleanupLog := cleanupRun k }

end ScanExecutor

/-! ## Auxiliary predicates and concrete sample data used by the theorems -/

/-- The statistics invariant: `total` equals the sum of the five severity
counters. -/
def statInv (st : Statistics) : Prop :=
  st.total = st.critical + st.high + st.medium + st.low + st.info

/-- The five severity tiers (the value set of `SEVERITY_MAP`). -/
def severityTiers : List String := ["info", "low", "medium", "high", "critical"]

/-- A successful poll whose status is strictly below 100 (loop keeps
waiting). -/
def pollOkBelow (p : Except Unit Nat) : Bool :=
  match p with
  | Except.ok s => decide (s < 100)
  | Except.error _ => false

/-- A poll on which the records-remaining query successfully returned 0. -/
def isZeroPoll (p : Except Unit Nat) : Bool :=
  match p with
  | Except.ok 0 => true
  | _ => false

/-- A poll on which the engine API call raised. -/
def isErrPoll (p : Except Unit Nat) : Bool :=
  match p with
  | Except.error _ => true
  | _ => false

/-- A raw alert whose risk field is not an integer string: `int('x')`
raises inside `_parse_alert`. -/
def alertBadRisk : Alert := { risk := some "x" }

/-- A raw alert with unrecognized (but integer) risk and confidence codes. -/
def alertCode7 : Alert := { risk := some "7", confidence := some "9" }

/-- A baseline normalized vulnerability used to build concrete sample
lists. -/
def baseVuln : Vuln :=
  { name := "X-Header Missing", type := "X-Header Missing", severity := "low"
    confidence := "medium", risk_code := 1, confidence_code := 2
    cwe_id := "", owasp_category := "Unknown", url := "http://t/a"
    method := "GET", parameter := "", attack := "", evidence := ""
    other_info := "", description := "", solution := "", reference := ""
    plugin_id := "", alert_ref := "", message_id := "", input_vector := ""
    status := "new" }

def medVuln : Vuln := { baseVuln with confidence := "medium" }

def lowVuln : Vuln := { baseVuln with name := "Low", confidence := "low" }

def fpVuln : Vuln := { baseVuln with name := "FP", confidence := "false_positive" }

def demoVulns : List Vuln := [medVuln, lowVuln, fpVuln]

/-- An environment whose readiness probe never answers 200 before the
timeout. -/
def envReadyFail : ScanExecutor.CoreEnv :=
  { targetUrl := some "http://target", readiness := [false, false, false] }

/-- An environment in which the spider poll loop soft-times-out (every
status below 100) and everything else succeeds; active scan disabled. -/
def envSpiderTimeout : ScanExecutor.CoreEnv :=
  { targetUrl := some "http://target"
    readiness := [true]
    spiderEnabled := true
    spiderStart := Except.ok "1"
    spiderPolls := [Except.ok 40, Except.ok 60]
    ajaxEnabled := false
    passivePolls := [Except.ok 0]
    activeEnabled := false
    alerts := Except.ok [] }

/-- An environment with the Spider phase disabled and every passive poll
raising (PassiveWait times out). -/
def envPassiveErr : ScanExecutor.CoreEnv :=
  { targetUrl := some "http://target"
    readiness := [true]
    spiderEnabled := false
    ajaxEnabled := false
    passivePolls := [Except.error (), Except.error ()]
    activeEnabled := false
    alerts := Except.ok [] }

/-! ## Supporting lemmas -/

/-- Severity classification always lands in one of the five tiers. -/
theorem severityOf_mem_tiers (s : String) :
    ScanResultParser.severityOf s ∈ severityTiers := by
  unfold ScanResultParser.severityOf ScanResultParser.SEVERITY_MAP severityTiers
  simp only [List.lookup]
  repeat' split <;> simp_all

/-- A successfully parsed alert carries the table-derived severity and
confidence. -/
theorem parseAlert_fields (a : Alert) (v : Vuln)
    (h : ScanResultParser.parseAlert a = some v) :
    v.severity = ScanResultParser.severityOf (a.risk.getD "0") ∧
    v.confidence = ScanResultParser.confidenceOf (a.confidence.getD "0") := by
  unfold ScanResultParser.parseAlert at h
  dsimp only at h
  split at h
  · cases h
    exact ⟨rfl, rfl⟩
  · cases h

/-- One statistics update preserves the invariant when the severity is one
of the five tiers. -/
theorem bumpStat_statInv (st : Statistics) (sev : String) (h : statInv st)
    (hm : sev ∈ severityTiers) :
    statInv (ScanResultParser.bumpStat st sev) := by
  unfold statInv ScanResultParser.bumpStat at *
  fin_cases hm <;> simp_all <;> omega

/-- The parse loop preserves the statistics invariant. -/
theorem parseLoop_statInv (alerts : List Alert) :
    ∀ acc : List Vuln × Statistics, statInv acc.2 →
      statInv (ScanResultParser.parseLoop acc alerts).2 := by
  induction alerts with
  | nil => intro acc h; exact h
  | cons a rest ih =>
    intro acc h
    unfold ScanResultParser.parseLoop
    cases hpa : ScanResultParser.parseAlert a with
    | none => exact ih acc h
    | some v =>
      apply ih
      apply bumpStat_statInv _ _ h
      rw [(parseAlert_fields a v hpa).1]
      exact severityOf_mem_tiers _

/-! ## Claims -/

/-- C1: for every input list of raw alerts the statistics returned by
`parse_alerts` satisfy `total = critical + high + medium + low + info`, and
on the empty list all six counters are zero. -/
theorem c1_statistics_invariant (alerts : List Alert) :
    statInv (ScanResultParser.parse_alerts alerts).2 ∧
    ScanResultParser.parse_alerts [] =
      ([], { critical := 0, high := 0, medium := 0, low := 0, info := 0, total := 0 }) := by
  constructor
  · exact parseLoop_statInv alerts ([], {}) rfl
  · rfl

/-- C6 (counterexample): on an alert whose risk field is the non-integer
string `x`, `_parse_alert` raises (at `int(risk)`), so classification of
that alert fails by raising, contradicting the claim that it never does
whatever the risk field value is. -/
theorem c6_counterexample : ScanResultParser.parseAlert alertBadRisk = none := by
  rfl

/-- C6 (amended): severity is mapped by the fixed table 0-info, 1-low,
2-medium, 3-high, 4-critical and confidence by the fixed table
0-false_positive, 1-low, 2-medium, 3-high, 4-confirmed; any unrecognized
code string defaults to info resp. low; both lookups are deterministic and
total, and `_parse_alert` succeeds — classifying with exactly these tables —
whenever the risk and confidence fields parse as integers (when one does
not, `_parse_alert` raises and `parse_alerts` skips that alert). -/
theorem c6_normalization_amended (a : Alert)
    (hr : (ScanResultParser.pyInt (a.risk.getD "0")).isSome = true)
    (hc : (ScanResultParser.pyInt (a.confidence.getD "0")).isSome = true) :
    (ScanResultParser.severityOf "0" = "info" ∧ ScanResultParser.severityOf "1" = "low" ∧
     ScanResultParser.severityOf "2" = "medium" ∧ ScanResultParser.severityOf "3" = "high" ∧
     ScanResultParser.severityOf "4" = "critical") ∧
    (∀ s, s ∉ (["0", "1", "2", "3", "4"] : List String) →
      ScanResultParser.severityOf s = "info") ∧
    (ScanResultParser.confidenceOf "0" = "false_positive" ∧
     ScanResultParser.confidenceOf "1" = "low" ∧
     ScanResultParser.confidenceOf "2" = "medium" ∧
     ScanResultParser.confidenceOf "3" = "high" ∧
     ScanResultParser.confidenceOf "4" = "confirmed") ∧
    (∀ s, s ∉ (["0", "1", "2", "3", "4"] : List String) →
      ScanResultParser.confidenceOf s = "low") ∧
    ∃ v, ScanResultParser.parseAlert a = some v ∧
      v.severity = ScanResultParser.severityOf (a.risk.getD "0") ∧
      v.confidence = ScanResultParser.confidenceOf (a.confidence.getD "0") := by
  refine ⟨by decide, ?_, by decide, ?_, ?_⟩
  · intro s hs
    unfold ScanResultParser.severityOf ScanResultParser.SEVERITY_MAP
    simp only [List.lookup]
    repeat' split <;> simp_all
  · intro s hs
    unfold ScanResultParser.confidenceOf ScanResultParser.CONFIDENCE_MAP
    simp only [List.lookup]
    repeat' split <;> simp_all
  · obtain ⟨rc, hrc⟩ := Option.isSome_iff_exists.mp hr
    obtain ⟨cc, hcc⟩ := Option.isSome_iff_exists.mp hc
    have hsome : (ScanResultParser.parseAlert a).isSome = true := by
      unfold ScanResultParser.parseAlert
      dsimp only
      rw [hrc, hcc]
      rfl
    obtain ⟨v, hv⟩ := Option.isSome_iff_exists.mp hsome
    exact ⟨v, hv, (parseAlert_fields a v hv).1, (parseAlert_fields a v hv).2⟩

/-- C6 (witness): the amended theorem applied to an alert with the
unrecognized integer codes risk 7 and confidence 9. -/
theorem c6_normalization_witness :
    ∃ v, ScanResultParser.parseAlert alertCode7 = some v ∧
      v.severity = ScanResultParser.severityOf (alertCode7.risk.getD "0") ∧
      v.confidence = ScanResultParser.confidenceOf (alertCode7.confidence.getD "0") :=
  (c6_normalization_amended alertCode7 (by decide) (by decide)).2.2.2.2

/-- Filtering the output of the deduplication loop by one key yields the
first occurrence of that key among the input not already seen. -/
theorem dedupAux_filter_key (k : String × String × String) (xs : List Vuln) :
    ∀ seen, (ScanResultParser.dedupAux seen xs).filter
        (fun v => decide (ScanResultParser.dedupKey v = k)) =
      if k ∈ seen then []
      else (xs.filter (fun v => decide (ScanResultParser.dedupKey v = k))).take 1 := by
  induction xs with
  | nil =>
    intro seen
    unfold ScanResultParser.dedupAux
    split <;> simp
  | cons v rest ih =>
    intro seen
    unfold ScanResultParser.dedupAux
    by_cases hv : ScanResultParser.dedupKey v ∈ seen
    · rw [if_pos hv, ih seen]
      by_cases hk : k ∈ seen
      · simp [hk]
      · have hne : ¬ (ScanResultParser.dedupKey v = k) := fun he => hk (he ▸ hv)
        simp [hk, List.filter_cons, hne]
    · rw [if_neg hv]
      by_cases hvk : ScanResultParser.dedupKey v = k
      · subst hvk
        rw [List.filter_cons_of_pos (by simp), ih]
        rw [if_neg hv]
        simp [List.filter_cons]
      · rw [List.filter_cons_of_neg (by simp [hvk]), ih]
        have : (k ∈ ScanResultParser.dedupKey v :: seen) ↔ k ∈ seen := by
          simp [List.mem_cons]
          intro h
          exact absurd h.symm hvk
        rw [List.filter_cons_of_neg (by simp [hvk])]
        by_cases hk : k ∈ seen
        · rw [if_pos (this.mpr hk), if_pos hk]
        · rw [if_neg (fun hh => hk (this.mp hh)), if_neg hk]

/-- No vulnerability surviving the deduplication loop has a key in the seen
set. -/
theorem dedupAux_key_not_seen (xs : List Vuln) :
    ∀ seen, ∀ v ∈ ScanResultParser.dedupAux seen xs,
      ScanResultParser.dedupKey v ∉ seen := by
  induction xs with
  | nil =>
    intro seen v hv
    simp [ScanResultParser.dedupAux] at hv
  | cons w rest ih =>
    intro seen v hv
    unfold ScanResultParser.dedupAux at hv
    by_cases hw : ScanResultParser.dedupKey w ∈ seen
    · rw [if_pos hw] at hv
      exact ih seen v hv
    · rw [if_neg hw] at hv
      rcases List.mem_cons.mp hv with rfl | hv'
      · exact hw
      · intro hs
        exact ih _ v hv' (List.mem_cons_of_mem _ hs)

/-- The keys of the deduplication output are pairwise distinct. -/
theorem dedupAux_keys_nodup (xs : List Vuln) :
    ∀ seen, ((ScanResultParser.dedupAux seen xs).map ScanResultParser.dedupKey).Nodup := by
  induction xs with
  | nil => intro seen; simp [ScanResultParser.dedupAux]
  | cons w rest ih =>
    intro seen
    unfold ScanResultParser.dedupAux
    by_cases hw : ScanResultParser.dedupKey w ∈ seen
    · rw [if_pos hw]; exact ih seen
    · rw [if_neg hw]
      simp only [List.map_cons, List.nodup_cons]
      constructor
      · intro hmem
        obtain ⟨v, hv, hkey⟩ := List.mem_map.mp hmem
        exact dedupAux_key_not_seen rest _ v hv (hkey ▸ List.mem_cons_self _ _)
      · exact ih _

/-- The deduplication loop is the identity on a list whose keys are pairwise
distinct and disjoint from the seen set. -/
theorem dedupAux_eq_self (xs : List Vuln) :
    ∀ seen, (∀ v ∈ xs, ScanResultParser.dedupKey v ∉ seen) →
      (xs.map ScanResultParser.dedupKey).Nodup →
      ScanResultParser.dedupAux seen xs = xs := by
  induction xs with
  | nil => intro seen _ _; rfl
  | cons w rest ih =>
    intro seen hsee hnd
    unfold ScanResultParser.dedupAux
    rw [if_neg (hsee w (List.mem_cons_self _ _))]
    simp only [List.map_cons, List.nodup_cons] at hnd
    congr 1
    apply ih
    · intro v hv
      simp only [List.mem_cons]
      rintro (hk | hk)
      · exact hnd.1 (hk ▸ List.mem_map_of_mem _ hv)
      · exact hsee v (List.mem_cons_of_mem _ hv) hk
    · exact hnd.2

/-- C7: deduplication keyed on `(type, url, parameter)` is idempotent, and
for every key exactly the first occurrence in list order survives (filtering
the output by any key yields the first input entry with that key, if any). -/
theorem c7_deduplicate_idempotent_first (xs : List Vuln) :
    ScanResultParser.deduplicate (ScanResultParser.deduplicate xs) =
      ScanResultParser.deduplicate xs ∧
    ∀ k, (ScanResultParser.deduplicate xs).filter
        (fun v => decide (ScanResultParser.dedupKey v = k)) =
      (xs.filter (fun v => decide (ScanResultParser.dedupKey v = k))).take 1 := by
  constructor
  · unfold ScanResultParser.deduplicate
    apply dedupAux_eq_self
    · intro v _
      simp
    · exact dedupAux_keys_nodup xs []
  · intro k
    unfold ScanResultParser.deduplicate
    rw [dedupAux_filter_key k xs []]
    simp

/-- With `min_confidence = 'medium'` the filter keeps exactly the
vulnerabilities whose confidence is in the tail `medium, high, confirmed` of
the ordering. -/
theorem filter_by_confidence_medium (vulns : List Vuln) :
    ScanResultParser.filter_by_confidence vulns "medium" =
      vulns.filter
        (fun v => (["medium", "high", "confirmed"] : List String).contains v.confidence) := rfl

/-- C8: filtering with minimum confidence `medium` retains exactly the
findings whose confidence is `medium`, `high` or `confirmed` — so among the
four ordering tiers only `low` is removed — and a `false_positive` finding
is not retained by the filter for any threshold inside the ordering
`low < medium < high < confirmed`. -/
theorem c8_filter_confidence_medium (vulns : List Vuln) :
    (∀ v, v ∈ ScanResultParser.filter_by_confidence vulns "medium" ↔
      v ∈ vulns ∧ v.confidence ∈ (["medium", "high", "confirmed"] : List String)) ∧
    (∀ v, v.confidence = "low" →
      v ∉ ScanResultParser.filter_by_confidence vulns "medium") ∧
    (∀ m, m ∈ ScanResultParser.confidence_order → ∀ v,
      v.confidence = "false_positive" →
      v ∉ ScanResultParser.filter_by_confidence vulns m) := by
  refine ⟨?_, ?_, ?_⟩
  · intro v
    rw [filter_by_confidence_medium]
    simp [List.mem_filter, List.elem_iff]
  · intro v hlow hmem
    rw [filter_by_confidence_medium] at hmem
    have := (List.mem_filter.mp hmem).2
    rw [hlow] at this
    simp at this
  · intro m hm v hfp hmem
    unfold ScanResultParser.filter_by_confidence at hmem
    split at hmem
    · have hp := (List.mem_filter.mp hmem).2
      have : v.confidence ∈ ScanResultParser.confidence_order :=
        List.drop_subset _ _ (List.elem_iff.mp hp)
      rw [hfp] at this
      simp [ScanResultParser.confidence_order] at this
    · rename_i hcon
      exact hcon (List.elem_iff.mpr hm)

/-- C8 (witness): on a concrete list, the medium-confidence finding is kept
while the low-confidence and false-positive findings are removed. -/
theorem c8_filter_confidence_medium_witness :
    lowVuln ∉ ScanResultParser.filter_by_confidence demoVulns "medium" ∧
    fpVuln ∉ ScanResultParser.filter_by_confidence demoVulns "medium" ∧
    medVuln ∈ ScanResultParser.filter_by_confidence demoVulns "medium" := by
  refine ⟨(c8_filter_confidence_medium demoVulns).2.1 lowVuln rfl,
    (c8_filter_confidence_medium demoVulns).2.2 "medium" (by decide) fpVuln rfl, ?_⟩
  exact ((c8_filter_confidence_medium demoVulns).1 medVuln).mpr (by decide)

/-- C10: any `min_confidence` outside the ordering
`low, medium, high, confirmed` — including `false_positive` and arbitrary
unrecognized strings — makes `filter_by_confidence` return its input
unchanged. -/
theorem c10_unknown_min_confidence (vulns : List Vuln) (m : String)
    (h : m ∉ ScanResultParser.confidence_order) :
    ScanResultParser.filter_by_confidence vulns m = vulns := by
  unfold ScanResultParser.filter_by_confidence
  split
  · rename_i hc
    exact absurd (List.elem_iff.mp hc) h
  · rfl

/-- C10 (witness): with the threshold `false_positive` (not in the
ordering) the input list comes back unchanged. -/
theorem c10_unknown_min_confidence_witness :
    ScanResultParser.filter_by_confidence demoVulns "false_positive" = demoVulns :=
  c10_unknown_min_confidence demoVulns "false_positive" (by decide)

/-- If every readiness probe before the timeout fails, the readiness loop
reports failure. -/
theorem waitForZap_all_false (l : List Bool) (h : ∀ b ∈ l, b = false) :
    ZAPScanner.waitForZap l = false := by
  induction l with
  | nil => rfl
  | cons b rest ih =>
    unfold ZAPScanner.waitForZap
    rw [h b (List.mem_cons_self _ _)]
    exact ih (fun x hx => h x (List.mem_cons_of_mem _ hx))

/-- If every poll before the timeout succeeds with a status below 100, the
scan-wait loop returns `False` without raising. -/
theorem waitScanLoop_all_below (polls : List (Except Unit Nat))
    (h : polls.all pollOkBelow = true) :
    ZAPScanner.waitScanLoop polls = Except.ok false := by
  induction polls with
  | nil => rfl
  | cons p rest ih =>
    rw [List.all_cons, Bool.and_eq_true] at h
    unfold ZAPScanner.waitScanLoop
    cases p with
    | error e => simp [pollOkBelow] at h
    | ok s =>
      have hs : s < 100 := by
        have := h.1
        simp [pollOkBelow] at this
        exact this
      dsimp only
      rw [if_neg (by omega)]
      exact ih h.2

/-- The passive loop completes on a poll exactly when that poll successfully
returned zero records. -/
theorem passive_complete_iff_zero (p : Except Unit Nat) :
    (ZAPScanner.get_scan_progress p).passive_scan_complete = isZeroPoll p := by
  cases p with
  | error e => rfl
  | ok n => cases n <;> rfl

/-- If some poll successfully returns zero records, the passive loop stops
at the first such poll: it performs exactly `findIdx + 1` polls. -/
theorem waitForPassiveScan_first_zero (polls : List (Except Unit Nat))
    (h : polls.any isZeroPoll = true) :
    ScanExecutor.waitForPassiveScan polls =
      (true, polls.findIdx isZeroPoll + 1) := by
  induction polls with
  | nil => simp at h
  | cons p rest ih =>
    unfold ScanExecutor.waitForPassiveScan
    rw [passive_complete_iff_zero]
    by_cases hp : isZeroPoll p = true
    · rw [if_pos hp, List.findIdx_cons, hp]
      rfl
    · have hp' : isZeroPoll p = false := by
        cases hz : isZeroPoll p
        · rfl
        · exact absurd hz hp
      rw [List.any_cons, hp'] at h
      simp only [Bool.false_or] at h
      rw [if_neg (by simp [hp']), ih h, List.findIdx_cons, hp']
      rfl

/-- If no poll successfully returns zero records before the timeout, the
passive loop polls the entire budget and ends without having completed —
and without raising (its type carries no exception). -/
theorem waitForPassiveScan_timeout (polls : List (Except Unit Nat))
    (h : polls.any isZeroPoll = false) :
    ScanExecutor.waitForPassiveScan polls = (false, polls.length) := by
  induction polls with
  | nil => rfl
  | cons p rest ih =>
    rw [List.any_cons] at h
    have hp : isZeroPoll p = false := by
      cases hz : isZeroPoll p
      · rfl
      · rw [hz] at h; simp at h
    rw [hp] at h
    simp only [Bool.false_or] at h
    unfold ScanExecutor.waitForPassiveScan
    rw [passive_complete_iff_zero, if_neg (by simp [hp]), ih h]
    rfl

/-- The passive loop reports completion exactly when some poll successfully
returned zero records. -/
theorem waitForPassiveScan_complete_iff (polls : List (Except Unit Nat)) :
    (ScanExecutor.waitForPassiveScan polls).1 = true ↔
      polls.any isZeroPoll = true := by
  constructor
  · intro h
    cases hz : polls.any isZeroPoll
    · rw [waitForPassiveScan_timeout polls hz] at h
      simp at h
    · rfl
  · intro h
    rw [waitForPassiveScan_first_zero polls h]

/-- The spider phase never runs cleanup. -/
theorem spiderPhase_no_cleanup (env : ScanExecutor.CoreEnv)
    (r : ScanExecutor.ScanResults) :
    ScanExecutor.Op.cleanup ∉ (ScanExecutor.spiderPhase env r).2.1 := by
  unfold ScanExecutor.spiderPhase
  repeat' split
  all_goals simp

/-- The AJAX spider phase never runs cleanup. -/
theorem ajaxPhase_no_cleanup (env : ScanExecutor.CoreEnv) :
    ScanExecutor.Op.cleanup ∉ (ScanExecutor.ajaxPhase env).1 := by
  unfold ScanExecutor.ajaxPhase
  repeat' split
  all_goals simp

/-- The active-scan phase never runs cleanup. -/
theorem activePhase_no_cleanup (env : ScanExecutor.CoreEnv)
    (r : ScanExecutor.ScanResults) :
    ScanExecutor.Op.cleanup ∉ (ScanExecutor.activePhase env r).2.1 := by
  unfold ScanExecutor.activePhase
  repeat' split
  all_goals simp

/-- The collect phase never runs cleanup. -/
theorem collectPhase_no_cleanup (env : ScanExecutor.CoreEnv)
    (r : ScanExecutor.ScanResults) :
    ScanExecutor.Op.cleanup ∉ (ScanExecutor.collectPhase env r).2.1 := by
  unfold ScanExecutor.collectPhase
  repeat' split
  all_goals simp

/-- The phase sequence never runs the cleanup routine. -/
theorem scanPhases_no_cleanup (env : ScanExecutor.CoreEnv)
    (r1 : ScanExecutor.ScanResults) :
    ScanExecutor.Op.cleanup ∉ (ScanExecutor.scanPhases env r1).2.1 := by
  unfold ScanExecutor.scanPhases
  rcases hsp : ScanExecutor.spiderPhase env r1 with ⟨r2, t2, e2⟩
  have h2 : ScanExecutor.Op.cleanup ∉ t2 := by
    have := spiderPhase_no_cleanup env r1
    rw [hsp] at this
    simpa using this
  rcases haj : ScanExecutor.ajaxPhase env with ⟨t3, e3⟩
  have h3 : ScanExecutor.Op.cleanup ∉ t3 := by
    have := ajaxPhase_no_cleanup env
    rw [haj] at this
    simpa using this
  rcases hac : ScanExecutor.activePhase env r2 with ⟨r5, t5, e5⟩
  have h5 : ScanExecutor.Op.cleanup ∉ t5 := by
    have := activePhase_no_cleanup env r2
    rw [hac] at this
    simpa using this
  rcases hco : ScanExecutor.collectPhase env r5 with ⟨r6, t6, e6⟩
  have h6 : ScanExecutor.Op.cleanup ∉ t6 := by
    have := collectPhase_no_cleanup env r5
    rw [hco] at this
    simpa using this
  cases e2 <;> cases e3 <;> cases e5 <;> cases e6 <;> simp_all

/-- The body of `execute_scan` never runs the cleanup routine itself. -/
theorem scanBody_no_cleanup (env : ScanExecutor.CoreEnv) :
    ScanExecutor.Op.cleanup ∉ (ScanExecutor.scanBody env).2.1 := by
  unfold ScanExecutor.scanBody
  dsimp only
  cases hcs : env.containerStart with
  | error e => simp
  | ok u =>
    dsimp only
    by_cases hz : ZAPScanner.waitForZap env.readiness = false
    · simp [hz]
    · rw [if_neg hz]
      cases ht : env.targetUrl with
      | none => simp
      | some url =>
        dsimp only
        rcases hph : ScanExecutor.scanPhases env
            { target_url := some url
              scan_type := some (env.scanType.getD "full") } with ⟨r, t, e⟩
        have hnp : ScanExecutor.Op.cleanup ∉ t := by
          have := scanPhases_no_cleanup env
            { target_url := some url, scan_type := some (env.scanType.getD "full") }
          rw [hph] at this
          simpa using this
        simp_all

/-- A disabled Spider phase does nothing. -/
theorem spiderPhase_disabled (env : ScanExecutor.CoreEnv)
    (r : ScanExecutor.ScanResults) (h : env.spiderEnabled = false) :
    ScanExecutor.spiderPhase env r = (r, [], none) := by
  simp [ScanExecutor.spiderPhase, h]

/-- A disabled AJAX spider phase does nothing. -/
theorem ajaxPhase_disabled (env : ScanExecutor.CoreEnv)
    (h : env.ajaxEnabled = false) :
    ScanExecutor.ajaxPhase env = ([], none) := by
  simp [ScanExecutor.ajaxPhase, h]

/-- A disabled active-scan phase does nothing. -/
theorem activePhase_disabled (env : ScanExecutor.CoreEnv)
    (r : ScanExecutor.ScanResults) (h : env.activeEnabled = false) :
    ScanExecutor.activePhase env r = (r, [], none) := by
  simp [ScanExecutor.activePhase, h]

/-- An enabled Spider phase whose start succeeds and whose polls all stay
below 100 soft-times-out: no exception, the scan id is recorded, execution
continues. -/
theorem spiderPhase_soft (env : ScanExecutor.CoreEnv)
    (r : ScanExecutor.ScanResults) (sid : String)
    (h4 : env.spiderEnabled = true)
    (h5 : env.spiderStart = Except.ok sid)
    (h6 : env.spiderPolls.all pollOkBelow = true) :
    ScanExecutor.spiderPhase env r =
      ({ r with spider_scan_id := some sid }, [ScanExecutor.Op.spiderScan], none) := by
  have hw : ZAPScanner.wait_for_spider env.spiderPolls = Except.ok false :=
    waitScanLoop_all_below env.spiderPolls h6
  simp [ScanExecutor.spiderPhase, h4, h5, hw]

/-- The collect phase always invokes exactly the alert-collection
operation. -/
theorem collectPhase_ops (env : ScanExecutor.CoreEnv)
    (r : ScanExecutor.ScanResults) :
    (ScanExecutor.collectPhase env r).2.1 = [ScanExecutor.Op.collectAlerts] := by
  unfold ScanExecutor.collectPhase
  repeat' split
  all_goals simp

/-- The active-scan phase never changes the recorded spider scan id. -/
theorem activePhase_spider_id (env : ScanExecutor.CoreEnv)
    (r : ScanExecutor.ScanResults) :
    (ScanExecutor.activePhase env r).1.spider_scan_id = r.spider_scan_id := by
  unfold ScanExecutor.activePhase
  repeat' split
  all_goals simp

/-- The collect phase never changes the recorded spider scan id. -/
theorem collectPhase_spider_id (env : ScanExecutor.CoreEnv)
    (r : ScanExecutor.ScanResults) :
    (ScanExecutor.collectPhase env r).1.spider_scan_id = r.spider_scan_id := by
  unfold ScanExecutor.collectPhase
  repeat' split
  all_goals simp

/-- The phase sequence reports the spider scan id recorded by the Spider
phase. -/
theorem scanPhases_spider_id (env : ScanExecutor.CoreEnv)
    (r1 : ScanExecutor.ScanResults) :
    (ScanExecutor.scanPhases env r1).1.spider_scan_id =
      (ScanExecutor.spiderPhase env r1).1.spider_scan_id := by
  unfold ScanExecutor.scanPhases
  rcases h1 : ScanExecutor.spiderPhase env r1 with ⟨r2, t2, e2⟩
  rcases h2 : ScanExecutor.ajaxPhase env with ⟨t3, e3⟩
  rcases h3 : ScanExecutor.activePhase env r2 with ⟨r5, t5, e5⟩
  rcases h4 : ScanExecutor.collectPhase env r5 with ⟨r6, t6, e6⟩
  have ha : r5.spider_scan_id = r2.spider_scan_id := by
    have := activePhase_spider_id env r2
    rw [h3] at this
    simpa using this
  have hcl : r6.spider_scan_id = r5.spider_scan_id := by
    have := collectPhase_spider_id env r5
    rw [h4] at this
    simpa using this
  cases e2 <;> cases e3 <;> cases e5 <;> cases e6 <;> simp_all

/-- When the Spider and AJAX phases finish without raising, the passive
wait is always reached. -/
theorem scanPhases_mem_passive (env : ScanExecutor.CoreEnv)
    (r1 : ScanExecutor.ScanResults)
    (hsp : (ScanExecutor.spiderPhase env r1).2.2 = none)
    (haj : (ScanExecutor.ajaxPhase env).2 = none) :
    ScanExecutor.Op.passivePoll ∈ (ScanExecutor.scanPhases env r1).2.1 := by
  unfold ScanExecutor.scanPhases
  rcases h1 : ScanExecutor.spiderPhase env r1 with ⟨r2, t2, e2⟩
  rcases h2 : ScanExecutor.ajaxPhase env with ⟨t3, e3⟩
  rw [h1] at hsp
  rw [h2] at haj
  simp only at hsp haj
  subst hsp
  subst haj
  dsimp only
  rcases h3 : ScanExecutor.activePhase env r2 with ⟨r5, t5, e5⟩
  cases e5 <;> simp

/-- When Spider and AJAX finish without raising and the active scan is
disabled, the collection step is always reached — whatever the passive
polls returned. -/
theorem scanPhases_mem_collect (env : ScanExecutor.CoreEnv)
    (r1 : ScanExecutor.ScanResults)
    (hsp : (ScanExecutor.spiderPhase env r1).2.2 = none)
    (haj : (ScanExecutor.ajaxPhase env).2 = none)
    (hact : env.activeEnabled = false) :
    ScanExecutor.Op.collectAlerts ∈ (ScanExecutor.scanPhases env r1).2.1 := by
  unfold ScanExecutor.scanPhases
  rcases h1 : ScanExecutor.spiderPhase env r1 with ⟨r2, t2, e2⟩
  rcases h2 : ScanExecutor.ajaxPhase env with ⟨t3, e3⟩
  rw [h1] at hsp
  rw [h2] at haj
  simp only at hsp haj
  subst hsp
  subst haj
  dsimp only
  rw [activePhase_disabled env r2 hact]
  dsimp only
  have := collectPhase_ops env r2
  rcases h4 : ScanExecutor.collectPhase env r2 with ⟨r6, t6, e6⟩
  rw [h4] at this
  simp_all

/-- Once the container is up, the engine ready and the target resolved, the
body is the phase sequence prefixed by the container start. -/
theorem scanBody_through (env : ScanExecutor.CoreEnv) (url : String)
    (h1 : env.containerStart = Except.ok ())
    (h2 : ZAPScanner.waitForZap env.readiness = true)
    (hurl : env.targetUrl = some url) :
    ScanExecutor.scanBody env =
      (match ScanExecutor.scanPhases env
          { target_url := some url
            scan_type := some (env.scanType.getD "full") } with
        | (r, t, e) => (r, [ScanExecutor.Op.startContainer] ++ t, e)) := by
  unfold ScanExecutor.scanBody
  rw [h1, hurl]
  dsimp only
  rw [h2]
  simp

/-- C2: for every execution of `execute_scan` — normal return, soft phase
timeout, or any exception — the `finally` block runs `_cleanup` exactly
once, and the outcome (final scan-results record and re-raised exception)
does not depend on anything that fails inside cleanup. -/
theorem c2_cleanup_exactly_once :
    (∀ (env : ScanExecutor.CoreEnv) (k : ScanExecutor.CleanupEnv),
      (ScanExecutor.execute_scan env k).trace.count ScanExecutor.Op.cleanup = 1) ∧
    (∀ (env : ScanExecutor.CoreEnv) (k1 k2 : ScanExecutor.CleanupEnv),
      (ScanExecutor.execute_scan env k1).results =
        (ScanExecutor.execute_scan env k2).results ∧
      (ScanExecutor.execute_scan env k1).raised =
        (ScanExecutor.execute_scan env k2).raised) := by
  constructor
  · intro env k
    have hnc := scanBody_no_cleanup env
    unfold ScanExecutor.execute_scan
    rcases hsb : ScanExecutor.scanBody env with ⟨r, t, e⟩
    rw [hsb] at hnc
    simp only at hnc
    cases e <;> simp [List.count_append, List.count_eq_zero.mpr hnc]
  · intro env k1 k2
    unfold ScanExecutor.execute_scan
    rcases hsb : ScanExecutor.scanBody env with ⟨r, t, e⟩
    cases e <;> exact ⟨rfl, rfl⟩

/-- C3: when the readiness probe never answers 200 before the timeout (and
the container itself started), `execute_scan` raises the readiness timeout,
the stored scan-results record carries status failed with that error, and
the trace shows no phase operation after the container start — only the
cleanup. -/
theorem c3_readiness_timeout (env : ScanExecutor.CoreEnv)
    (k : ScanExecutor.CleanupEnv)
    (hstart : env.containerStart = Except.ok ())
    (hready : ∀ b ∈ env.readiness, b = false) :
    (ScanExecutor.execute_scan env k).raised =
      some ScanExecutor.ScanError.zapReadinessTimeout ∧
    (ScanExecutor.execute_scan env k).results.status = some "failed" ∧
    (ScanExecutor.execute_scan env k).results.error =
      some ScanExecutor.ScanError.zapReadinessTimeout ∧
    (ScanExecutor.execute_scan env k).trace =
      [ScanExecutor.Op.startContainer, ScanExecutor.Op.cleanup] := by
  have hz := waitForZap_all_false env.readiness hready
  unfold ScanExecutor.execute_scan ScanExecutor.scanBody
  rw [hstart]
  dsimp only
  rw [hz]
  simp

/-- C3 (witness): the theorem at a concrete environment whose three
readiness probes all fail. -/
theorem c3_readiness_timeout_witness :
    (ScanExecutor.execute_scan envReadyFail {}).raised =
      some ScanExecutor.ScanError.zapReadinessTimeout ∧
    (ScanExecutor.execute_scan envReadyFail {}).results.status = some "failed" ∧
    (ScanExecutor.execute_scan envReadyFail {}).results.error =
      some ScanExecutor.ScanError.zapReadinessTimeout ∧
    (ScanExecutor.execute_scan envReadyFail {}).trace =
      [ScanExecutor.Op.startContainer, ScanExecutor.Op.cleanup] :=
  c3_readiness_timeout envReadyFail {} rfl (by decide)

/-- C4: a spider-phase poll timeout is soft — when every poll before the
deadline reports a status below 100, `wait_for_spider` returns `False`
without raising, the orchestration records the spider scan id and proceeds
to the PassiveWait phase, and there is an execution of exactly this shape
whose final status is still `completed`. -/
theorem c4_spider_soft_timeout (env : ScanExecutor.CoreEnv) (sid : String)
    (k : ScanExecutor.CleanupEnv)
    (h1 : env.containerStart = Except.ok ())
    (h2 : ZAPScanner.waitForZap env.readiness = true)
    (h3 : env.targetUrl.isSome = true)
    (h4 : env.spiderEnabled = true)
    (h5 : env.spiderStart = Except.ok sid)
    (h6 : env.spiderPolls.all pollOkBelow = true)
    (h7 : env.ajaxEnabled = false) :
    ZAPScanner.wait_for_spider env.spiderPolls = Except.ok false ∧
    (ScanExecutor.execute_scan env k).results.spider_scan_id = some sid ∧
    ScanExecutor.Op.passivePoll ∈ (ScanExecutor.execute_scan env k).trace ∧
    ∃ (env2 : ScanExecutor.CoreEnv) (k2 : ScanExecutor.CleanupEnv),
      env2.spiderEnabled = true ∧
      ZAPScanner.wait_for_spider env2.spiderPolls = Except.ok false ∧
      (ScanExecutor.execute_scan env2 k2).results.status = some "completed" := by
  obtain ⟨url, hurl⟩ := Option.isSome_iff_exists.mp h3
  have hbt := scanBody_through env url h1 h2 hurl
  have hspider := spiderPhase_soft env
    { target_url := some url, scan_type := some (env.scanType.getD "full") } sid h4 h5 h6
  have hsp2 : (ScanExecutor.spiderPhase env
      { target_url := some url
        scan_type := some (env.scanType.getD "full") }).2.2 = none := by
    rw [hspider]
  have haj2 : (ScanExecutor.ajaxPhase env).2 = none := by
    rw [ajaxPhase_disabled env h7]
  refine ⟨waitScanLoop_all_below env.spiderPolls h6, ?_, ?_,
    envSpiderTimeout, {}, rfl, rfl, rfl⟩
  · have hid := scanPhases_spider_id env
      { target_url := some url, scan_type := some (env.scanType.getD "full") }
    rw [hspider] at hid
    simp only at hid
    unfold ScanExecutor.execute_scan
    rw [hbt]
    rcases hph : ScanExecutor.scanPhases env
        { target_url := some url
          scan_type := some (env.scanType.getD "full") } with ⟨r, t, e⟩
    rw [hph] at hid
    simp only at hid
    cases e <;> simpa using hid
  · have hmem := scanPhases_mem_passive env
      { target_url := some url, scan_type := some (env.scanType.getD "full") } hsp2 haj2
    unfold ScanExecutor.execute_scan
    rw [hbt]
    rcases hph : ScanExecutor.scanPhases env
        { target_url := some url
          scan_type := some (env.scanType.getD "full") } with ⟨r, t, e⟩
    rw [hph] at hmem
    simp only at hmem
    cases e <;> simp [hmem]

/-- C4 (witness): the theorem at a concrete environment whose two spider
polls report 40 and 60 percent. -/
theorem c4_spider_soft_timeout_witness :
    ZAPScanner.wait_for_spider envSpiderTimeout.spiderPolls = Except.ok false ∧
    (ScanExecutor.execute_scan envSpiderTimeout {}).results.spider_scan_id = some "1" ∧
    ScanExecutor.Op.passivePoll ∈ (ScanExecutor.execute_scan envSpiderTimeout {}).trace ∧
    ∃ (env2 : ScanExecutor.CoreEnv) (k2 : ScanExecutor.CleanupEnv),
      env2.spiderEnabled = true ∧
      ZAPScanner.wait_for_spider env2.spiderPolls = Except.ok false ∧
      (ScanExecutor.execute_scan env2 k2).results.status = some "completed" :=
  c4_spider_soft_timeout envSpiderTimeout "1" {} rfl rfl rfl rfl rfl (by decide) rfl

/-- C5: the PassiveWait phase runs even when the Spider phase is disabled;
its loop stops at the first successful zero reading of the
records-remaining query, regardless of prior non-zero polls; with no zero
reading before the timeout it ends normally (no exception) after polling
the whole budget — and the orchestration still reaches the collection
step. -/
theorem c5_passive_wait (env : ScanExecutor.CoreEnv)
    (k : ScanExecutor.CleanupEnv)
    (h1 : env.containerStart = Except.ok ())
    (h2 : ZAPScanner.waitForZap env.readiness = true)
    (h3 : env.targetUrl.isSome = true)
    (h4 : env.spiderEnabled = false)
    (h5 : env.ajaxEnabled = false)
    (h6 : env.activeEnabled = false) :
    ScanExecutor.Op.passivePoll ∈ (ScanExecutor.execute_scan env k).trace ∧
    ScanExecutor.Op.collectAlerts ∈ (ScanExecutor.execute_scan env k).trace ∧
    (∀ polls : List (Except Unit Nat), polls.any isZeroPoll = true →
      ScanExecutor.waitForPassiveScan polls =
        (true, polls.findIdx isZeroPoll + 1)) ∧
    (∀ polls : List (Except Unit Nat), polls.any isZeroPoll = false →
      ScanExecutor.waitForPassiveScan polls = (false, polls.length)) := by
  obtain ⟨url, hurl⟩ := Option.isSome_iff_exists.mp h3
  have hbt := scanBody_through env url h1 h2 hurl
  have hsp2 : (ScanExecutor.spiderPhase env
      { target_url := some url
        scan_type := some (env.scanType.getD "full") }).2.2 = none := by
    rw [spiderPhase_disabled env _ h4]
  have haj2 : (ScanExecutor.ajaxPhase env).2 = none := by
    rw [ajaxPhase_disabled env h5]
  have hmem := scanPhases_mem_passive env
    { target_url := some url, scan_type := some (env.scanType.getD "full") } hsp2 haj2
  have hmemc := scanPhases_mem_collect env
    { target_url := some url, scan_type := some (env.scanType.getD "full") } hsp2 haj2 h6
  refine ⟨?_, ?_, waitForPassiveScan_first_zero, waitForPassiveScan_timeout⟩
  · unfold ScanExecutor.execute_scan
    rw [hbt]
    rcases hph : ScanExecutor.scanPhases env
        { target_url := some url
          scan_type := some (env.scanType.getD "full") } with ⟨r, t, e⟩
    rw [hph] at hmem
    simp only at hmem
    cases e <;> simp [hmem]
  · unfold ScanExecutor.execute_scan
    rw [hbt]
    rcases hph : ScanExecutor.scanPhases env
        { target_url := some url
          scan_type := some (env.scanType.getD "full") } with ⟨r, t, e⟩
    rw [hph] at hmemc
    simp only at hmemc
    cases e <;> simp [hmemc]

/-- C5 (witness): the theorem at a concrete spider-disabled environment in
which every passive poll raises, so PassiveWait times out and the scan
still reaches collection. -/
theorem c5_passive_wait_witness :
    ScanExecutor.Op.passivePoll ∈
      (ScanExecutor.execute_scan envPassiveErr {}).trace ∧
    ScanExecutor.Op.collectAlerts ∈
      (ScanExecutor.execute_scan envPassiveErr {}).trace ∧
    (∀ polls : List (Except Unit Nat), polls.any isZeroPoll = true →
      ScanExecutor.waitForPassiveScan polls =
        (true, polls.findIdx isZeroPoll + 1)) ∧
    (∀ polls : List (Except Unit Nat), polls.any isZeroPoll = false →
      ScanExecutor.waitForPassiveScan polls = (false, polls.length)) :=
  c5_passive_wait envPassiveErr {} rfl rfl rfl rfl rfl rfl

/-- C9: an engine API failure inside `get_scan_progress` yields
`{records_to_scan: 0, passive_scan_complete: False}` rather than
propagating; hence the PassiveWait loop never takes an API failure for
completion — it completes exactly when some poll successfully reports zero
records, and a budget of failing polls is consumed in full without
completing. -/
theorem c9_progress_error_not_complete :
    ZAPScanner.get_scan_progress (Except.error ()) =
      { records_to_scan := 0, passive_scan_complete := false } ∧
    (∀ polls : List (Except Unit Nat),
      ((ScanExecutor.waitForPassiveScan polls).1 = true ↔
        polls.any isZeroPoll = true)) ∧
    (∀ polls : List (Except Unit Nat), polls.all isErrPoll = true →
      ScanExecutor.waitForPassiveScan polls = (false, polls.length)) := by
  refine ⟨rfl, waitForPassiveScan_complete_iff, ?_⟩
  intro polls h
  apply waitForPassiveScan_timeout
  cases hz : polls.any isZeroPoll
  · rfl
  · exfalso
    obtain ⟨p, hp, hzp⟩ := List.any_eq_true.mp hz
    have := List.all_eq_true.mp h p hp
    cases p with
    | error e => simp [isZeroPoll] at hzp
    | ok n => simp [isErrPoll] at this

/-- C9 (witness): the theorem applied to a two-poll budget in which every
poll raises: the loop polls both and does not complete. -/
theorem c9_progress_error_not_complete_witness :
    ScanExecutor.waitForPassiveScan [Except.error (), Except.error ()] =
      (false, 2) :=
  c9_progress_error_not_complete.2.2 [Except.error (), Except.error ()] (by decide)

end AMTD
